import Mathlib

/-!
TextureStreaming: the texture pool, the texture read and the streaming controller.

A shallow embedding of `Unreal/TextureReceiver.cpp`.

* A `std::shared_ptr<Texture2D>` is a `TextureRef`: the address of the object it owns
  (its identity) together with the fields read through it.  Nothing in the program
  writes `width` or `height` after construction.
* A `std::queue` is a `List` whose head is the front of the queue; `push` appends at the
  end and `pop` removes the head.
* `int` is `Int`; where the program does `int` arithmetic the result is wrapped to 32-bit
  two's complement (`wrapInt`).
* The mutex and the condition variable are not modelled: every operation is atomic, and
  the interleaving of the capture thread with the controlling thread is a schedule.
-/

namespace TextureStreaming

/-! ## Machine integers and exceptions -/

/-- The values of the type `int` (32 bits, two's complement). -/
def IsInt (z : Int) : Prop := -2147483648 ≤ z ∧ z ≤ 2147483647

instance (z : Int) : Decidable (IsInt z) := by
  unfold IsInt
  infer_instance

/-- The `int` that a 32-bit two's complement machine computes for an `int` expression
whose exact value is `z`: `z` itself when it is in range, wrapped around otherwise. -/
def wrapInt (z : Int) : Int := (z + 2147483648) % 4294967296 - 2147483648

/-- The exceptions thrown in the program, all derived from `std::exception`:
`std::out_of_range` by `ReadPixels`, `std::length_error` by the constructor of
`std::vector`. -/
inductive Exception
  | out_of_range
  | length_error
deriving DecidableEq, Repr

instance : DecidableEq (Except Exception (List (Fin 256)))
  | .ok a, .ok b => if h : a = b then isTrue (by rw [h]) else isFalse (by
      intro heq
      cases heq
      exact h rfl)
  | .error a, .error b => if h : a = b then isTrue (by rw [h]) else isFalse (by
      intro heq
      cases heq
      exact h rfl)
  | .ok _, .error _ => isFalse (by intro heq; cases heq)
  | .error _, .ok _ => isFalse (by intro heq; cases heq)

/-- The largest size of a `std::vector<unsigned char>`: `PTRDIFF_MAX` on a 64-bit
platform. -/
def vector_max_size : Int := 9223372036854775807

/-- The constructor `std::vector<unsigned char>(n, value)` called with an `int` count:
the count is converted to `size_t` (modulo 2^64), a count above `max_size()` throws
`std::length_error`, otherwise the vector holds `count` copies of `value`.  Memory is
taken to suffice for every vector of an admissible size. -/
def vectorFill (n : Int) (value : Fin 256) : Except Exception (List (Fin 256)) :=
  let count := n % 18446744073709551616
  if count > vector_max_size then .error .length_error
  else .ok (List.replicate count.toNat value)

/-! ## Texture2D and shared pointers -/

/-- Class `Texture2D`: its two public `int` fields. -/
structure Texture2D where
  width : Int
  height : Int
deriving DecidableEq, Repr

/-- Method `Texture2D::ReadPixels` (lines 21-26): the bounds check on `int` sums, then a
vector of `w * h * 3` zero bytes, the product computed in `int`. -/
def Texture2D.ReadPixels (t : Texture2D) (x y w h : Int) :
    Except Exception (List (Fin 256)) :=
  if x < 0 ∨ y < 0 ∨ wrapInt (x + w) > t.width ∨ wrapInt (y + h) > t.height then
    .error .out_of_range
  else
    vectorFill (wrapInt (wrapInt (w * h) * 3)) 0

/-- Method `Texture2D::EncodeToJPG` (lines 28-30): the stub returns an empty vector. -/
def Texture2D.EncodeToJPG (_t : Texture2D) (_quality : Int) : List (Fin 256) := []

/-- A `std::shared_ptr<Texture2D>` owning a live object: `addr` is the address of the
object (two pointers are the same object exactly when they agree), `obj` the fields
read through the pointer. -/
structure TextureRef where
  addr : Nat
  obj : Texture2D
deriving DecidableEq, Repr

/-- The allocator behind `std::make_shared`: given the addresses of the objects that are
alive it hands out an address that is none of them. -/
structure Allocator where
  alloc : List Nat → Nat
  fresh : ∀ live : List Nat, alloc live ∉ live

/-- `std::make_shared<Texture2D>(width, height)`, `live` being the addresses in use. -/
def make_shared (A : Allocator) (live : List Nat) (width height : Int) : TextureRef :=
  ⟨A.alloc live, ⟨width, height⟩⟩

/-- A concrete allocator: one past the largest address in use. -/
def bumpAllocator : Allocator where
  alloc := fun live => live.foldr max 0 + 1
  fresh := by
    intro live (h : live.foldr max 0 + 1 ∈ live)
    have key : ∀ (l : List Nat) (a : Nat), a ∈ l → a ≤ l.foldr max 0 := by
      intro l
      induction l with
      | nil => intro a ha; cases ha
      | cons b t ih =>
        intro a ha
        rcases List.mem_cons.mp ha with rfl | ha
        · exact Nat.le_max_left _ _
        · exact Nat.le_trans (ih a ha) (Nat.le_max_right _ _)
    have := key live _ h
    omega

/-! ## TexturePool -/

/-- Class `TexturePool`: the queue `availableTextures`, front of the queue first. -/
structure TexturePool where
  availableTextures : List TextureRef
deriving DecidableEq, Repr

/-- The test of line 47: `texture->width == width && texture->height == height`. -/
def sameShape (width height : Int) (texture : TextureRef) : Bool :=
  decide (texture.obj.width = width ∧ texture.obj.height = height)

/-- Lines 48-51 of `GetTexture`: while `tempQueue` is not empty, push its front onto
`availableTextures` and pop it. -/
def restoreQueue : (tempQueue availableTextures : List TextureRef) → List TextureRef
  | [], availableTextures => availableTextures
  | t :: tempQueue, availableTextures => restoreQueue tempQueue (availableTextures ++ [t])

/-- The outer loop of `GetTexture` (lines 43-60) on the two queues.  When
`availableTextures` runs empty the new object is made while `tempQueue` still owns the
buffers that were skipped, and `tempQueue` is then destroyed with the call. -/
def scanQueue (A : Allocator) (live : List Nat) (width height : Int) :
    (availableTextures tempQueue : List TextureRef) → TextureRef × List TextureRef
  | [], tempQueue =>
    (make_shared A (live ++ tempQueue.map TextureRef.addr) width height, [])
  | texture :: availableTextures, tempQueue =>
    if sameShape width height texture then
      (texture, restoreQueue tempQueue availableTextures)
    else
      scanQueue A live width height availableTextures (tempQueue ++ [texture])

/-- Method `TexturePool::GetTexture`: the pointer returned and the pool afterwards.
`live` are the addresses of the live objects outside the pool. -/
def TexturePool.GetTexture (A : Allocator) (live : List Nat) (pool : TexturePool)
    (width height : Int) : TextureRef × TexturePool :=
  let r := scanQueue A live width height pool.availableTextures []
  (r.1, ⟨r.2⟩)

/-- Method `TexturePool::ReturnTexture`: push the pointer at the back of the queue. -/
def TexturePool.ReturnTexture (pool : TexturePool) (texture : TextureRef) : TexturePool :=
  ⟨pool.availableTextures ++ [texture]⟩

/-! ## Floating point

A finite `float` or `double` is a sign, a significand and an exponent.  The values of the
program stay far from the exponent limits of both formats, so overflow to infinity and
subnormal numbers are left out. -/

/-- A finite binary floating-point number: `mant * 2 ^ exp`, negated when `neg`. -/
structure Fp where
  neg : Bool
  mant : Nat
  exp : Int
deriving DecidableEq, Repr

/-- Halve `n` until it is below 2, at most `fuel` times, and count the halvings. -/
def log2Fuel : Nat → Nat → Nat
  | 0, _ => 0
  | fuel + 1, n => if 2 ≤ n then log2Fuel fuel (n / 2) + 1 else 0

/-- The position of the leading bit of `n`: `2 ^ ilog2 n ≤ n < 2 ^ (ilog2 n + 1)` for
positive `n`. -/
def ilog2 (n : Nat) : Nat := log2Fuel n n

/-- The integer `e` with `2 ^ e ≤ n / d < 2 ^ (e + 1)`, for positive `n` and `d`. -/
def floorLog2 (n d : Nat) : Int :=
  if d ≤ n then (ilog2 (n / d) : Int) else -((ilog2 ((d - 1) / n) : Int) + 1)

/-- The floating-point number with a significand of `prec` bits nearest to the exact
quotient `n / d` (`d` positive), ties to the even significand: the rounding of every
IEEE 754 operation in the default mode.  The quotient is scaled by a power of two so
that it lies between `2 ^ (prec - 1)` and `2 ^ prec`, and rounded to an integer there. -/
def Fp.ofRatio (prec : Nat) (neg : Bool) (n d : Nat) : Fp :=
  if n = 0 then ⟨neg, 0, 0⟩
  else
    let shift : Int := (prec : Int) - 1 - floorLog2 n d
    let num := n * 2 ^ shift.toNat
    let den := d * 2 ^ (-shift).toNat
    let q := num / den
    let r := num % den
    let m := if 2 * r < den then q else if den < 2 * r then q + 1 else q + q % 2
    ⟨neg, m, -shift⟩

/-- The product of a floating-point number and an exactly converted integer `k`, rounded
to `prec` bits. -/
def Fp.mulNat (prec : Nat) (v : Fp) (k : Nat) : Fp :=
  Fp.ofRatio prec v.neg (v.mant * k * 2 ^ v.exp.toNat) (2 ^ (-v.exp).toNat)

/-- Function `std::round`: the nearest integer, halfway cases away from zero. -/
def Fp.round (v : Fp) : Int :=
  let mag : Nat :=
    if 0 ≤ v.exp then v.mant * 2 ^ v.exp.toNat
    else (2 * v.mant + 2 ^ (-v.exp).toNat) / 2 ^ ((-v.exp).toNat + 1)
  if v.neg then -(mag : Int) else (mag : Int)

/-- The integer part of a floating-point number (the fraction is discarded). -/
def Fp.trunc (v : Fp) : Int :=
  let mag : Nat :=
    if 0 ≤ v.exp then v.mant * 2 ^ v.exp.toNat else v.mant / 2 ^ (-v.exp).toNat
  if v.neg then -(mag : Int) else (mag : Int)

/-- The conversion `static_cast<int>` of an integral floating-point value `z`: `z` when
`int` can hold it; otherwise the conversion is undefined in C++, and the value taken
here is the one x86 delivers, the smallest `int`. -/
def castToInt (z : Int) : Int := if IsInt z then z else -2147483648

/-- The rounding that the specification of the target width names: the integer nearest
to the rational `q`, a half going away from zero. -/
def nearestInt (q : ℚ) : Int := if 0 ≤ q then ⌊q + 1 / 2⌋ else -⌊-q + 1 / 2⌋

/-! ## PhotonNetwork and TextureStreamer -/

/-- Class `PhotonNetwork`: its two static flags. -/
structure PhotonNetwork where
  IsConnected : Bool
  IsMasterClient : Bool
deriving DecidableEq, Repr

/-- Enumeration `TextureStreamer::FrameRatePreset`. -/
inductive FrameRatePreset
  | _20FPS
  | _24FPS
  | _30FPS
  | _60FPS
deriving DecidableEq, Repr

/-- The constant `TEXTURE_STREAM_EVENT`. -/
def TEXTURE_STREAM_EVENT : Nat := 1

/-- Class `TextureStreamer`: its data members, but for the mutex, the condition variable
and the camera pointer, which no code reads.  `renderTexture` is `none` for a null
pointer. -/
structure TextureStreamer where
  texturePool : TexturePool
  frameRate : FrameRatePreset
  desiredResolutionHeight : Int
  compression : Int
  textureWidth : Int
  textureHeight : Int
  waitTime : Fp
  isStreaming : Bool
  renderTexture : Option TextureRef
deriving DecidableEq, Repr

/-- Method `ApplyPresets` (lines 158-169).  In `desiredResolutionHeight * 16.0 / 9.0` the
conversion of the `int` to `double` and the product with 16.0 are exact (the product is
below `2 ^ 36` in magnitude), the quotient by 9.0 is rounded to a 53-bit significand;
the `float` quotients are rounded to 24 bits. -/
def TextureStreamer.ApplyPresets (s : TextureStreamer) : TextureStreamer :=
  { s with
    textureWidth :=
      castToInt (Fp.round (Fp.ofRatio 53 (decide (s.desiredResolutionHeight < 0))
        (s.desiredResolutionHeight.natAbs * 16) 9))
    textureHeight := s.desiredResolutionHeight
    waitTime :=
      match s.frameRate with
      | ._20FPS => Fp.ofRatio 24 false 1 20
      | ._24FPS => Fp.ofRatio 24 false 1 24
      | ._30FPS => Fp.ofRatio 24 false 1 30
      | ._60FPS => Fp.ofRatio 24 false 1 60 }

/-- The addresses of the objects that the streamer keeps alive: the pooled buffers and
the render texture. -/
def TextureStreamer.owned (s : TextureStreamer) : List Nat :=
  s.texturePool.availableTextures.map TextureRef.addr ++
    (s.renderTexture.map TextureRef.addr).toList

/-- Method `InitializeTextureStreaming` (lines 171-175).  `live` are the addresses of the
live objects that the streamer does not own. -/
def TextureStreamer.InitializeTextureStreaming (A : Allocator) (live : List Nat)
    (s : TextureStreamer) : TextureStreamer :=
  match s.renderTexture with
  | none =>
    { s with renderTexture := some (make_shared A (live ++ s.owned) s.textureWidth s.textureHeight) }
  | some renderTexture =>
    if renderTexture.obj.width ≠ s.textureWidth ∨ renderTexture.obj.height ≠ s.textureHeight then
      { s with
        renderTexture := some (make_shared A (live ++ s.owned) s.textureWidth s.textureHeight) }
    else s

/-- The constructor of `TextureStreamer` (lines 106-109), after the member initialisers:
an empty pool, the preset `_30FPS`, height 620, compression 30, the flag `isStreaming`
true and a null render texture.  `textureWidth`, `textureHeight` and `waitTime` have no
initialiser; they are written by `ApplyPresets` before anything reads them and start
here at zero. -/
def TextureStreamer.new (A : Allocator) (live : List Nat) : TextureStreamer :=
  TextureStreamer.InitializeTextureStreaming A live
    (TextureStreamer.ApplyPresets
      { texturePool := ⟨[]⟩
        frameRate := ._30FPS
        desiredResolutionHeight := 620
        compression := 30
        textureWidth := 0
        textureHeight := 0
        waitTime := ⟨false, 0, 0⟩
        isStreaming := true
        renderTexture := none })

/-- Method `Awake` (lines 111-114). -/
def TextureStreamer.Awake (A : Allocator) (live : List Nat) (s : TextureStreamer) :
    TextureStreamer :=
  TextureStreamer.InitializeTextureStreaming A live s.ApplyPresets

/-- Method `StopStreaming` (lines 123-129): clear the flag (and notify the condition
variable, which wakes a waiting capture thread). -/
def TextureStreamer.StopStreaming (s : TextureStreamer) : TextureStreamer :=
  { s with isStreaming := false }

/-- Method `OnDestroy` (lines 131-133). -/
def TextureStreamer.OnDestroy (s : TextureStreamer) : TextureStreamer :=
  { s with isStreaming := false }

/-! ## The capture thread -/

/-- What a capture thread does that can be observed, in the order it does it: a texture
got from the pool, a read that returned (its pixels are used by nothing afterwards), the
bytes of the encoding, a call of `PhotonNetwork::RaiseEvent`, an exception caught. -/
inductive Event
  | acquired (texture : TextureRef)
  | read
  | encoded (jpegData : List (Fin 256))
  | raised (eventCode : Nat) (eventData : List (Fin 256))
  | caught (e : Exception)
deriving DecidableEq, Repr

/-- The places of `CaptureAndSendTexture` between which a thread moves in one step. -/
inductive Pc
  | loopHead
  | body
  | waiting
  | exited
deriving DecidableEq, Repr

/-- The state local to one thread running `CaptureAndSendTexture`: where it is, and its
local `waitDuration` in milliseconds. -/
structure CaptureThread where
  pc : Pc
  waitDuration : Int
deriving DecidableEq, Repr

/-- The state that the threads of the program share: the static `PhotonNetwork`, the
`TextureStreamer` object, and the record of what the capture threads did. -/
structure Shared where
  net : PhotonNetwork
  streamer : TextureStreamer
  trace : List Event
deriving DecidableEq, Repr

/-- Line 136 of `CaptureAndSendTexture`: `static_cast<int>(waitTime * 1000)`, the product
taken in `float`; the thread then stands at the head of the loop. -/
def CaptureThread.start (s : TextureStreamer) : CaptureThread :=
  ⟨.loopHead, castToInt (Fp.trunc (Fp.mulNat 24 s.waitTime 1000))⟩

/-- Method `StartStreaming` (lines 116-121): when the network is connected a detached
thread is launched on `CaptureAndSendTexture`; nothing else is touched. -/
def StartStreaming (w : Shared) : Shared × Option CaptureThread :=
  if w.net.IsConnected then (w, some (CaptureThread.start w.streamer)) else (w, none)

/-- Method `StopStreaming` called on the streamer of the shared state. -/
def StopStreaming (w : Shared) : Shared :=
  { w with streamer := w.streamer.StopStreaming }

/-- Lines 139-149, one pass through the body of the loop: acquire a texture from the
pool, then inside `try` read it whole, encode it and raise the event; an exception of
the read is caught and logged.  The local `texture` is dropped at the end of the pass:
nothing gives it back to the pool. -/
def captureBody (A : Allocator) (live : List Nat) (w : Shared) : Shared :=
  let got := w.streamer.texturePool.GetTexture A
    (live ++ (w.streamer.renderTexture.map TextureRef.addr).toList)
    w.streamer.textureWidth w.streamer.textureHeight
  let texture := got.1
  let streamer := { w.streamer with texturePool := got.2 }
  match texture.obj.ReadPixels 0 0 texture.obj.width texture.obj.height with
  | .ok _pixels =>
    let jpegData := texture.obj.EncodeToJPG w.streamer.compression
    { w with
      streamer := streamer
      trace := w.trace ++ [.acquired texture, .read, .encoded jpegData,
        .raised TEXTURE_STREAM_EVENT jpegData] }
  | .error e =>
    { w with
      streamer := streamer
      trace := w.trace ++ [.acquired texture, .caught e] }

/-- One step of a thread running `CaptureAndSendTexture` (lines 138-155).  At the head
of the loop the flag is tested; the body is one step; the step at `waiting` is the
return of `cv.wait_for`, whose value is the negated flag: on true the loop is left,
on false (the time ran out with the flag still set) the loop goes round. -/
def CaptureThread.step (A : Allocator) (live : List Nat) (w : Shared) (t : CaptureThread) :
    Shared × CaptureThread :=
  match t.pc with
  | .loopHead =>
    if w.streamer.isStreaming then (w, { t with pc := .body })
    else (w, { t with pc := .exited })
  | .body => (captureBody A live w, { t with pc := .waiting })
  | .waiting =>
    if w.streamer.isStreaming then (w, { t with pc := .loopHead })
    else (w, { t with pc := .exited })
  | .exited => (w, t)

/-- What happens next in a run: the capture thread takes a step, or the controlling
thread calls `StopStreaming`. -/
inductive Action
  | capture
  | stop
deriving DecidableEq, Repr

/-- A run of one capture thread against the controlling thread, along a schedule. -/
def runSchedule (A : Allocator) (live : List Nat) :
    List Action → Shared × CaptureThread → Shared × CaptureThread
  | [], c => c
  | .capture :: rest, c => runSchedule A live rest (CaptureThread.step A live c.1 c.2)
  | .stop :: rest, c => runSchedule A live rest (StopStreaming c.1, c.2)

/-! ## The frame-rate switch and the value of a float -/

/-- The rational number that a floating-point number stands for. -/
def Fp.toRat (v : Fp) : ℚ :=
  (if v.neg then -1 else 1) * (v.mant : ℚ) * (2 : ℚ) ^ v.exp

/-- The frames per second that each preset names. -/
def FrameRatePreset.fps : FrameRatePreset → Nat
  | ._20FPS => 20
  | ._24FPS => 24
  | ._30FPS => 30
  | ._60FPS => 60

/-- The integer value of each enumerator of `FrameRatePreset`, in declaration order. -/
def FrameRatePreset.toNat : FrameRatePreset → Nat
  | ._20FPS => 0
  | ._24FPS => 1
  | ._30FPS => 2
  | ._60FPS => 3

/-- The `switch` of lines 162-168 on the integer value of `frameRate`: the wait time
that the case taken assigns, and `none` when the `default` branch is taken, where
`assert(false)` stands. -/
def switchFrameRate (frameRate : Nat) : Option Fp :=
  match frameRate with
  | 0 => some (Fp.ofRatio 24 false 1 20)
  | 1 => some (Fp.ofRatio 24 false 1 24)
  | 2 => some (Fp.ofRatio 24 false 1 30)
  | 3 => some (Fp.ofRatio 24 false 1 60)
  | _ => none

/-! ## Example states -/

/-- A pool that holds the same 4x4 buffer twice (it was returned twice). -/
def duplicatePool : TexturePool := ⟨[⟨7, ⟨4, 4⟩⟩, ⟨7, ⟨4, 4⟩⟩]⟩

/-- A pool of three buffers of three shapes: 1x1, 2x2, 3x3. -/
def mixedPool : TexturePool := ⟨[⟨1, ⟨1, 1⟩⟩, ⟨2, ⟨2, 2⟩⟩, ⟨3, ⟨3, 3⟩⟩]⟩

/-- A pool of three buffers, the last two of the same shape 2x2. -/
def twoMatchPool : TexturePool := ⟨[⟨1, ⟨1, 1⟩⟩, ⟨2, ⟨2, 2⟩⟩, ⟨3, ⟨2, 2⟩⟩]⟩

/-- A pool with one 1x1 buffer. -/
def singlePool : TexturePool := ⟨[⟨1, ⟨1, 1⟩⟩]⟩

/-- The streamer as its constructor leaves it. -/
def defaultStreamer : TextureStreamer := TextureStreamer.new bumpAllocator []

/-- A streamer whose desired height is 1207959552, which is 9 * 2^27. -/
def tallStreamer : TextureStreamer :=
  { defaultStreamer with desiredResolutionHeight := 1207959552 }

/-- The program before `main` sets the network flags: not connected, nothing done yet. -/
def offlineShared : Shared := ⟨⟨false, false⟩, defaultStreamer, []⟩

/-- The program of `main` at its call of `StartStreaming`: connected, `Awake` done. -/
def onlineShared : Shared :=
  ⟨⟨true, true⟩, TextureStreamer.Awake bumpAllocator [] defaultStreamer, []⟩

/-- The first run of `main`: the thread of the first `StartStreaming` tests the flag,
runs the body once and its wait times out; `StopStreaming` is called; the thread tests
the flag again and leaves. -/
def firstRun : Shared × CaptureThread :=
  runSchedule bumpAllocator [] [.capture, .capture, .capture, .stop, .capture]
    (onlineShared, CaptureThread.start onlineShared.streamer)

/-- The second run: `StartStreaming` is called again after the first run, and the thread
it launches is given five steps. -/
def secondRun : Shared × CaptureThread :=
  runSchedule bumpAllocator [] [.capture, .capture, .capture, .capture, .capture]
    (firstRun.1, CaptureThread.start firstRun.1.streamer)

/-- The program of `main` with the desired height 20100 in place of 620: the derived
width is 35733, and 35733 * 20100 * 3 is above the largest `int`. -/
def wideShared : Shared :=
  ⟨⟨true, true⟩,
    TextureStreamer.Awake bumpAllocator []
      { defaultStreamer with desiredResolutionHeight := 20100 }, []⟩

/-- The first cycle of the thread that `StartStreaming` launches in `main`: the test
of the flag, the body, and the thread is at its wait. -/
def firstCycle : Shared × CaptureThread :=
  runSchedule bumpAllocator [] [.capture, .capture]
    (onlineShared, CaptureThread.start onlineShared.streamer)

/-- The second cycle: the wait of the first cycle times out, the flag is tested and the
body runs again. -/
def secondCycle : Shared × CaptureThread :=
  runSchedule bumpAllocator [] [.capture, .capture, .capture] firstCycle

/-- The program of `main` when `StopStreaming` is called while the thread waits at the
end of its first cycle. -/
def stoppedWhileWaiting : Shared × CaptureThread :=
  runSchedule bumpAllocator [] [.stop] firstCycle

/-! ## The pool: lemmas -/

theorem restoreQueue_eq (tempQueue availableTextures : List TextureRef) :
    restoreQueue tempQueue availableTextures = availableTextures ++ tempQueue := by
  induction tempQueue generalizing availableTextures with
  | nil => simp [restoreQueue]
  | cons t rest ih => simp [restoreQueue, ih]

theorem scanQueue_hit (A : Allocator) (live : List Nat) (W H : Int)
    (pre : List TextureRef) (m : TextureRef) (post tempQueue : List TextureRef)
    (hpre : ∀ t ∈ pre, sameShape W H t = false) (hm : sameShape W H m = true) :
    scanQueue A live W H (pre ++ m :: post) tempQueue = (m, post ++ (tempQueue ++ pre)) := by
  induction pre generalizing tempQueue with
  | nil => simp [scanQueue, hm, restoreQueue_eq]
  | cons a rest ih =>
    have ha : sameShape W H a = false := hpre a (List.mem_cons_self _ _)
    have hrest : ∀ t ∈ rest, sameShape W H t = false :=
      fun t ht => hpre t (List.mem_cons_of_mem _ ht)
    simp [scanQueue, ha, ih (tempQueue ++ [a]) hrest]

theorem scanQueue_miss (A : Allocator) (live : List Nat) (W H : Int)
    (L tempQueue : List TextureRef) (hL : ∀ t ∈ L, sameShape W H t = false) :
    scanQueue A live W H L tempQueue
      = (make_shared A (live ++ (tempQueue ++ L).map TextureRef.addr) W H, []) := by
  induction L generalizing tempQueue with
  | nil => simp [scanQueue]
  | cons a rest ih =>
    have ha : sameShape W H a = false := hL a (List.mem_cons_self _ _)
    have hrest : ∀ t ∈ rest, sameShape W H t = false :=
      fun t ht => hL t (List.mem_cons_of_mem _ ht)
    simp [scanQueue, ha, ih (tempQueue ++ [a]) hrest]

theorem first_match_split (W H : Int) (L : List TextureRef) (m : TextureRef)
    (hfind : L.find? (sameShape W H) = some m) :
    sameShape W H m = true ∧ ∃ pre post, L = pre ++ m :: post ∧
      ∀ t ∈ pre, sameShape W H t = false := by
  obtain ⟨hm, pre, post, hL, hpre⟩ := List.find?_eq_some.mp hfind
  refine ⟨hm, pre, post, hL, fun t ht => ?_⟩
  simpa using hpre t ht

theorem scanQueue_shape (A : Allocator) (live : List Nat) (W H : Int)
    (L tempQueue : List TextureRef) :
    (scanQueue A live W H L tempQueue).1.obj = ⟨W, H⟩ := by
  induction L generalizing tempQueue with
  | nil => simp [scanQueue, make_shared]
  | cons a rest ih =>
    by_cases ha : sameShape W H a = true
    · have hshape : a.obj.width = W ∧ a.obj.height = H := by simpa [sameShape] using ha
      obtain ⟨addr, ⟨w, h⟩⟩ := a
      simp only at hshape
      obtain ⟨rfl, rfl⟩ := hshape
      simp [scanQueue, ha]
    · simp [scanQueue, ha, ih]

theorem sameShape_eq_false_iff (W H : Int) (t : TextureRef) :
    sameShape W H t = false ↔ ¬ (t.obj.width = W ∧ t.obj.height = H) := by
  simp [sameShape]

/-! ## The pool: claims -/

/-- C1, as amended: when the free list holds a buffer of shape (W,H), GetTexture(W,H)
returns the first such buffer in free-list order, the very same object; and when the
free list holds no buffer twice, that buffer is not in the free list afterwards. -/
theorem GetTexture_returns_first_match (A : Allocator) (live : List Nat)
    (pool : TexturePool) (W H : Int) (m : TextureRef)
    (hfind : pool.availableTextures.find? (sameShape W H) = some m) :
    (pool.GetTexture A live W H).1 = m ∧
      (pool.availableTextures.Nodup →
        m ∉ (pool.GetTexture A live W H).2.availableTextures) := by
  obtain ⟨hm, pre, post, hL, hpre⟩ := first_match_split W H _ m hfind
  have hscan := scanQueue_hit A live W H pre m post [] hpre hm
  obtain ⟨L⟩ := pool
  simp only at hL
  subst hL
  simp only [TexturePool.GetTexture, hscan, List.nil_append, true_and]
  intro hnd
  have hnd2 : (m :: (pre ++ post)).Nodup :=
    (List.perm_middle.nodup_iff).mp hnd
  have hnot : m ∉ pre ++ post := (List.nodup_cons.mp hnd2).1
  simpa [or_comm] using hnot

/-- Witness of C1: in a pool of a 1x1 buffer and two 2x2 buffers, three distinct
objects, GetTexture(2,2) returns the first 2x2 buffer and it is gone from the free
list. -/
theorem GetTexture_returns_first_match_witness :
    twoMatchPool.availableTextures.find? (sameShape 2 2) = some ⟨2, ⟨2, 2⟩⟩ ∧
    twoMatchPool.availableTextures.Nodup ∧
    (twoMatchPool.GetTexture bumpAllocator [] 2 2).1 = ⟨2, ⟨2, 2⟩⟩ ∧
    (⟨2, ⟨2, 2⟩⟩ : TextureRef) ∉
      (twoMatchPool.GetTexture bumpAllocator [] 2 2).2.availableTextures :=
  ⟨by decide, by decide,
    (GetTexture_returns_first_match bumpAllocator [] twoMatchPool 2 2 ⟨2, ⟨2, 2⟩⟩
      (by decide)).1,
    (GetTexture_returns_first_match bumpAllocator [] twoMatchPool 2 2 ⟨2, ⟨2, 2⟩⟩
      (by decide)).2 (by decide)⟩

/-- C1 fails as stated: a free list that holds one 4x4 buffer twice has that buffer as
its first match, GetTexture(4,4) returns it, and it is still in the free list. -/
theorem GetTexture_duplicate_still_pooled :
    duplicatePool.availableTextures.find? (sameShape 4 4) = some ⟨7, ⟨4, 4⟩⟩ ∧
    (duplicatePool.GetTexture bumpAllocator [] 4 4).1 = ⟨7, ⟨4, 4⟩⟩ ∧
    (⟨7, ⟨4, 4⟩⟩ : TextureRef) ∈
      (duplicatePool.GetTexture bumpAllocator [] 4 4).2.availableTextures := by
  decide

/-- C2, as amended: on a hit the free list afterwards is the buffers that followed the
returned buffer and then the buffers that preceded it, each group in its original
order; no other buffer is lost or added. -/
theorem GetTexture_hit_free_list (A : Allocator) (live : List Nat) (W H : Int)
    (pre : List TextureRef) (m : TextureRef) (post : List TextureRef)
    (hpre : ∀ t ∈ pre, sameShape W H t = false) (hm : sameShape W H m = true) :
    (TexturePool.GetTexture A live ⟨pre ++ m :: post⟩ W H).1 = m ∧
    (TexturePool.GetTexture A live ⟨pre ++ m :: post⟩ W H).2.availableTextures
      = post ++ pre ∧
    List.Perm (TexturePool.GetTexture A live ⟨pre ++ m :: post⟩ W H).2.availableTextures
      (pre ++ post) := by
  have hscan := scanQueue_hit A live W H pre m post [] hpre hm
  simp only [TexturePool.GetTexture, hscan, List.nil_append, true_and]
  exact List.perm_append_comm

/-- Witness of C2: the pool 1x1, 2x2, 3x3 and the request (2,2). -/
theorem GetTexture_hit_free_list_witness :
    (∀ t ∈ [(⟨1, ⟨1, 1⟩⟩ : TextureRef)], sameShape 2 2 t = false) ∧
    sameShape 2 2 ⟨2, ⟨2, 2⟩⟩ = true ∧
    ((TexturePool.GetTexture bumpAllocator [] ⟨[⟨1, ⟨1, 1⟩⟩] ++ ⟨2, ⟨2, 2⟩⟩ :: [⟨3, ⟨3, 3⟩⟩]⟩
        2 2).1 = ⟨2, ⟨2, 2⟩⟩ ∧
      (TexturePool.GetTexture bumpAllocator [] ⟨[⟨1, ⟨1, 1⟩⟩] ++ ⟨2, ⟨2, 2⟩⟩ :: [⟨3, ⟨3, 3⟩⟩]⟩
        2 2).2.availableTextures = [⟨3, ⟨3, 3⟩⟩] ++ [⟨1, ⟨1, 1⟩⟩] ∧
      List.Perm
        (TexturePool.GetTexture bumpAllocator [] ⟨[⟨1, ⟨1, 1⟩⟩] ++ ⟨2, ⟨2, 2⟩⟩ :: [⟨3, ⟨3, 3⟩⟩]⟩
          2 2).2.availableTextures
        ([⟨1, ⟨1, 1⟩⟩] ++ [⟨3, ⟨3, 3⟩⟩])) :=
  ⟨by decide, by decide,
    GetTexture_hit_free_list bumpAllocator [] 2 2 _ _ _ (by decide) (by decide)⟩

/-- C2 fails as stated: from the free list 1x1, 2x2, 3x3 the request (2,2) returns the
2x2 buffer and leaves 3x3, 1x1: not the original list with the returned buffer removed,
the 1x1 buffer was before the 3x3 buffer and is now after it. -/
theorem GetTexture_reorders_free_list :
    (mixedPool.GetTexture bumpAllocator [] 2 2).1 = ⟨2, ⟨2, 2⟩⟩ ∧
    (mixedPool.GetTexture bumpAllocator [] 2 2).2.availableTextures
      = [⟨3, ⟨3, 3⟩⟩, ⟨1, ⟨1, 1⟩⟩] ∧
    (mixedPool.GetTexture bumpAllocator [] 2 2).2.availableTextures
      ≠ mixedPool.availableTextures.erase ⟨2, ⟨2, 2⟩⟩ := by
  decide

/-- C3, as amended: when GetTexture(W,H) finds a buffer of the requested shape in a free
list that holds no buffer twice, every buffer that was in the free list is afterwards
either still in the free list or the buffer returned, and never both. -/
theorem GetTexture_hit_keeps_every_buffer (A : Allocator) (live : List Nat)
    (pool : TexturePool) (W H : Int) (m : TextureRef)
    (hfind : pool.availableTextures.find? (sameShape W H) = some m)
    (hnodup : pool.availableTextures.Nodup) :
    ∀ t ∈ pool.availableTextures,
      (t ∈ (pool.GetTexture A live W H).2.availableTextures ∨
        t = (pool.GetTexture A live W H).1) ∧
      ¬ (t ∈ (pool.GetTexture A live W H).2.availableTextures ∧
        t = (pool.GetTexture A live W H).1) := by
  obtain ⟨hm, pre, post, hL, hpre⟩ := first_match_split W H _ m hfind
  have hscan := scanQueue_hit A live W H pre m post [] hpre hm
  obtain ⟨L⟩ := pool
  simp only at hL hnodup
  subst hL
  simp only [TexturePool.GetTexture, hscan, List.nil_append]
  have hnd2 : (m :: (pre ++ post)).Nodup := (List.perm_middle.nodup_iff).mp hnodup
  have hnot : m ∉ pre ++ post := (List.nodup_cons.mp hnd2).1
  intro t ht
  have ht2 : t ∈ pre ∨ t = m ∨ t ∈ post := by simpa using ht
  refine ⟨?_, ?_⟩
  · rcases ht2 with h | h | h
    · exact Or.inl (List.mem_append.mpr (Or.inr h))
    · exact Or.inr h
    · exact Or.inl (List.mem_append.mpr (Or.inl h))
  · rintro ⟨hin, rfl⟩
    exact hnot (List.mem_append.mpr ((List.mem_append.mp hin).symm))

/-- Witness of C3: the pool 1x1, 2x2, 2x2 (three distinct buffers), request (2,2). -/
theorem GetTexture_hit_keeps_every_buffer_witness :
    twoMatchPool.availableTextures.find? (sameShape 2 2) = some ⟨2, ⟨2, 2⟩⟩ ∧
    twoMatchPool.availableTextures.Nodup ∧
    ∀ t ∈ twoMatchPool.availableTextures,
      (t ∈ (twoMatchPool.GetTexture bumpAllocator [] 2 2).2.availableTextures ∨
        t = (twoMatchPool.GetTexture bumpAllocator [] 2 2).1) ∧
      ¬ (t ∈ (twoMatchPool.GetTexture bumpAllocator [] 2 2).2.availableTextures ∧
        t = (twoMatchPool.GetTexture bumpAllocator [] 2 2).1) :=
  ⟨by decide, by decide,
    GetTexture_hit_keeps_every_buffer bumpAllocator [] twoMatchPool 2 2 ⟨2, ⟨2, 2⟩⟩
      (by decide) (by decide)⟩

/-- C3 fails as stated, in two ways.  A miss drops the pool: from the free list holding
one 1x1 buffer, GetTexture(2,2) returns another buffer and leaves the free list empty,
so the 1x1 buffer is neither pooled nor returned.  And a buffer that the free list
holds twice is afterwards both returned and pooled. -/
theorem GetTexture_miss_drops_pool_and_duplicate_is_both :
    ((⟨1, ⟨1, 1⟩⟩ : TextureRef) ∈ singlePool.availableTextures ∧
      (singlePool.GetTexture bumpAllocator [] 2 2).2.availableTextures = [] ∧
      (⟨1, ⟨1, 1⟩⟩ : TextureRef) ≠ (singlePool.GetTexture bumpAllocator [] 2 2).1) ∧
    ((⟨7, ⟨4, 4⟩⟩ : TextureRef) ∈ duplicatePool.availableTextures ∧
      (⟨7, ⟨4, 4⟩⟩ : TextureRef) ∈
        (duplicatePool.GetTexture bumpAllocator [] 4 4).2.availableTextures ∧
      (⟨7, ⟨4, 4⟩⟩ : TextureRef) = (duplicatePool.GetTexture bumpAllocator [] 4 4).1) := by
  decide

/-- C4: GetTexture(W,H) always returns a buffer of width W and height H; and when no
pooled buffer has shape (W,H), the buffer returned is the one newly made by
make_shared, at an address that is the address of no buffer of the free list (nor of
any other live object). -/
theorem GetTexture_shape_and_fresh (A : Allocator) (live : List Nat)
    (pool : TexturePool) (W H : Int) :
    (pool.GetTexture A live W H).1.obj.width = W ∧
    (pool.GetTexture A live W H).1.obj.height = H ∧
    ((∀ t ∈ pool.availableTextures, ¬ (t.obj.width = W ∧ t.obj.height = H)) →
      (pool.GetTexture A live W H).1
          = make_shared A (live ++ pool.availableTextures.map TextureRef.addr) W H ∧
        (∀ t ∈ pool.availableTextures, (pool.GetTexture A live W H).1 ≠ t ∧
          (pool.GetTexture A live W H).1.addr ≠ t.addr) ∧
        (pool.GetTexture A live W H).1.addr ∉ live) := by
  have hshape := scanQueue_shape A live W H pool.availableTextures []
  refine ⟨?_, ?_, ?_⟩
  · simp [TexturePool.GetTexture, hshape]
  · simp [TexturePool.GetTexture, hshape]
  · intro hmiss
    have hmiss2 : ∀ t ∈ pool.availableTextures, sameShape W H t = false :=
      fun t ht => (sameShape_eq_false_iff W H t).mpr (hmiss t ht)
    have hscan := scanQueue_miss A live W H pool.availableTextures [] hmiss2
    have hfresh := A.fresh (live ++ pool.availableTextures.map TextureRef.addr)
    simp only [TexturePool.GetTexture, hscan, List.nil_append, true_and]
    have haddr : ∀ t ∈ pool.availableTextures,
        (make_shared A (live ++ pool.availableTextures.map TextureRef.addr) W H).addr
          ≠ t.addr := by
      intro t ht heq
      apply hfresh
      refine List.mem_append.mpr (Or.inr ?_)
      rw [show A.alloc (live ++ pool.availableTextures.map TextureRef.addr) = t.addr from heq]
      exact List.mem_map_of_mem _ ht
    refine ⟨fun t ht => ⟨?_, haddr t ht⟩, ?_⟩
    · intro heq
      exact haddr t ht (congrArg TextureRef.addr heq)
    · intro hin
      exact hfresh (List.mem_append.mpr (Or.inl hin))

/-- Witness of C4: a pool with one 1x1 buffer at address 1, the request (2,2) and
another live object at address 5: the buffer returned is new, at address 6. -/
theorem GetTexture_shape_and_fresh_witness :
    (∀ t ∈ singlePool.availableTextures, ¬ (t.obj.width = 2 ∧ t.obj.height = 2)) ∧
    (singlePool.GetTexture bumpAllocator [5] 2 2).1 = ⟨6, ⟨2, 2⟩⟩ ∧
    (∀ t ∈ singlePool.availableTextures,
      (singlePool.GetTexture bumpAllocator [5] 2 2).1 ≠ t ∧
        (singlePool.GetTexture bumpAllocator [5] 2 2).1.addr ≠ t.addr) ∧
    (singlePool.GetTexture bumpAllocator [5] 2 2).1.addr ∉ [5] :=
  ⟨by decide,
    (((GetTexture_shape_and_fresh bumpAllocator [5] singlePool 2 2).2.2 (by decide)).1).trans
      (by decide),
    ((GetTexture_shape_and_fresh bumpAllocator [5] singlePool 2 2).2.2 (by decide)).2⟩

/-- C5: when no buffer of the free list L has the shape of b, ReturnTexture(b) followed
by GetTexture(b.width, b.height) returns b itself and leaves the free list equal to L. -/
theorem ReturnTexture_GetTexture_round_trip (A : Allocator) (live : List Nat)
    (L : List TextureRef) (b : TextureRef)
    (hL : ∀ t ∈ L, ¬ (t.obj.width = b.obj.width ∧ t.obj.height = b.obj.height)) :
    ((TexturePool.mk L).ReturnTexture b).GetTexture A live b.obj.width b.obj.height
      = (b, TexturePool.mk L) := by
  have hpre : ∀ t ∈ L, sameShape b.obj.width b.obj.height t = false :=
    fun t ht => (sameShape_eq_false_iff _ _ t).mpr (hL t ht)
  have hb : sameShape b.obj.width b.obj.height b = true := by simp [sameShape]
  have hscan := scanQueue_hit A live b.obj.width b.obj.height L b [] [] hpre hb
  simp [TexturePool.GetTexture, TexturePool.ReturnTexture, hscan]

/-- Witness of C5: the free list 1x1, 3x3 and a 2x2 buffer at address 9. -/
theorem ReturnTexture_GetTexture_round_trip_witness :
    (∀ t ∈ [(⟨1, ⟨1, 1⟩⟩ : TextureRef), ⟨3, ⟨3, 3⟩⟩],
      ¬ (t.obj.width = (⟨9, ⟨2, 2⟩⟩ : TextureRef).obj.width ∧
        t.obj.height = (⟨9, ⟨2, 2⟩⟩ : TextureRef).obj.height)) ∧
    ((TexturePool.mk [⟨1, ⟨1, 1⟩⟩, ⟨3, ⟨3, 3⟩⟩]).ReturnTexture ⟨9, ⟨2, 2⟩⟩).GetTexture
        bumpAllocator [] (⟨9, ⟨2, 2⟩⟩ : TextureRef).obj.width
        (⟨9, ⟨2, 2⟩⟩ : TextureRef).obj.height
      = (⟨9, ⟨2, 2⟩⟩, TexturePool.mk [⟨1, ⟨1, 1⟩⟩, ⟨3, ⟨3, 3⟩⟩]) :=
  ⟨by decide, ReturnTexture_GetTexture_round_trip bumpAllocator [] _ _ (by decide)⟩

/-! ## ReadPixels -/

theorem wrapInt_of_isInt (z : Int) (hz : IsInt z) : wrapInt z = z := by
  unfold IsInt at hz
  unfold wrapInt
  omega

theorem vectorFill_of_count (n : Int) (h0 : 0 ≤ n) (h1 : n ≤ 2147483647) :
    vectorFill n 0 = .ok (List.replicate n.toNat 0) := by
  have hmod : n % 18446744073709551616 = n := by omega
  have hle : ¬ n > vector_max_size := by
    unfold vector_max_size
    omega
  simp only [vectorFill, hmod, if_neg hle]

/-- C6, as amended: on a texture whose width and height are `int` values, every region
with x >= 0, y >= 0, w >= 0, h >= 0, x+w <= width, y+h <= height and w*h*3 at most
2147483647 (the largest `int`) is read with success, and the bytes returned are exactly
w*h*3 in number. -/
theorem ReadPixels_in_bounds (t : Texture2D) (x y w h : Int)
    (hW : t.width ≤ 2147483647) (hH : t.height ≤ 2147483647)
    (hx : 0 ≤ x) (hy : 0 ≤ y) (hw : 0 ≤ w) (hh : 0 ≤ h)
    (hxw : x + w ≤ t.width) (hyh : y + h ≤ t.height)
    (hsize : w * h * 3 ≤ 2147483647) :
    ∃ bytes, t.ReadPixels x y w h = .ok bytes ∧ (bytes.length : Int) = w * h * 3 := by
  have hp : 0 ≤ w * h := mul_nonneg hw hh
  have e1 : wrapInt (x + w) = x + w := wrapInt_of_isInt _ ⟨by omega, by omega⟩
  have e2 : wrapInt (y + h) = y + h := wrapInt_of_isInt _ ⟨by omega, by omega⟩
  have e3 : wrapInt (w * h) = w * h := wrapInt_of_isInt _ ⟨by omega, by omega⟩
  have e4 : wrapInt (w * h * 3) = w * h * 3 := wrapInt_of_isInt _ ⟨by omega, by omega⟩
  have hcheck : ¬ (x < 0 ∨ y < 0 ∨ x + w > t.width ∨ y + h > t.height) := by omega
  refine ⟨List.replicate (w * h * 3).toNat 0, ?_, ?_⟩
  · simp only [Texture2D.ReadPixels, e1, e2, e3, e4, if_neg hcheck]
    exact vectorFill_of_count _ (by omega) hsize
  · rw [List.length_replicate]
    exact Int.toNat_of_nonneg (by omega)

/-- Witness of C6: the region (1,2,3,4) of a 100x100 texture is read as 36 bytes. -/
theorem ReadPixels_in_bounds_witness :
    ((100 : Int) ≤ 2147483647 ∧ (0 : Int) ≤ 1 ∧ (0 : Int) ≤ 2 ∧ (0 : Int) ≤ 3 ∧ (0 : Int) ≤ 4 ∧
      (1 : Int) + 3 ≤ 100 ∧ (2 : Int) + 4 ≤ 100 ∧ (3 : Int) * 4 * 3 ≤ 2147483647) ∧
    ∃ bytes, (Texture2D.mk 100 100).ReadPixels 1 2 3 4 = .ok bytes ∧
      (bytes.length : Int) = 3 * 4 * 3 :=
  ⟨by decide,
    ReadPixels_in_bounds ⟨100, 100⟩ 1 2 3 4 (by decide) (by decide) (by decide) (by decide)
      (by decide) (by decide) (by decide) (by decide) (by decide)⟩

/-- C6 fails as stated.  The region (0,0,-1,1) of a 10x10 texture satisfies x >= 0,
y >= 0, x+w <= width and y+h <= height, and the read throws `std::length_error` (the
count -3 is converted to a huge `size_t`).  The region (0,0,30000,30000) of a
30000x30000 texture satisfies them too, and w*h*3 = 2700000000 overflows `int`: the
read throws as well. -/
theorem ReadPixels_in_bounds_can_throw :
    ((0 : Int) ≤ 0 ∧ (0 : Int) + (-1) ≤ 10 ∧ (0 : Int) + 1 ≤ 10 ∧
      (Texture2D.mk 10 10).ReadPixels 0 0 (-1) 1 = .error .length_error) ∧
    ((0 : Int) ≤ 0 ∧ (0 : Int) + 30000 ≤ 30000 ∧
      (Texture2D.mk 30000 30000).ReadPixels 0 0 30000 30000 = .error .length_error) := by
  decide

/-- C7, as amended: a region with x < 0, or y < 0, or x+w > width where x+w is an `int`
value, or y+h > height where y+h is an `int` value, is refused: ReadPixels throws
`std::out_of_range` and returns no bytes. -/
theorem ReadPixels_out_of_bounds (t : Texture2D) (x y w h : Int)
    (hbad : x < 0 ∨ y < 0 ∨ (IsInt (x + w) ∧ x + w > t.width) ∨
      (IsInt (y + h) ∧ y + h > t.height)) :
    t.ReadPixels x y w h = .error .out_of_range := by
  have hcheck : x < 0 ∨ y < 0 ∨ wrapInt (x + w) > t.width ∨ wrapInt (y + h) > t.height := by
    rcases hbad with h1 | h1 | ⟨hi, h1⟩ | ⟨hi, h1⟩
    · exact Or.inl h1
    · exact Or.inr (Or.inl h1)
    · exact Or.inr (Or.inr (Or.inl (by rw [wrapInt_of_isInt _ hi]; exact h1)))
    · exact Or.inr (Or.inr (Or.inr (by rw [wrapInt_of_isInt _ hi]; exact h1)))
  simp only [Texture2D.ReadPixels, if_pos hcheck]

/-- Witness of C7: on a 100x100 texture the request (95,0,10,10) fails, 95+10 > 100. -/
theorem ReadPixels_out_of_bounds_witness :
    ((95 : Int) < 0 ∨ (0 : Int) < 0 ∨ (IsInt (95 + 10) ∧ (95 : Int) + 10 > 100) ∨
      (IsInt (0 + 10) ∧ (0 : Int) + 10 > 100)) ∧
    (Texture2D.mk 100 100).ReadPixels 95 0 10 10 = .error .out_of_range :=
  ⟨by decide, ReadPixels_out_of_bounds ⟨100, 100⟩ 95 0 10 10 (by decide)⟩

/-- C7 fails as stated: on a 100x100 texture the region (2147483647,0,1,0) has
x+w = 2147483648 > 100, yet the `int` sum x+w wraps to -2147483648, the check passes
and the read returns an empty vector instead of throwing. -/
theorem ReadPixels_overflow_passes_check :
    IsInt 2147483647 ∧ IsInt 1 ∧ (2147483647 : Int) + 1 > 100 ∧
    (Texture2D.mk 100 100).ReadPixels 2147483647 0 1 0 = .ok [] := by
  decide

/-! ## ApplyPresets -/

theorem two_pow_log2Fuel_le (fuel n : Nat) (hn : 1 ≤ n) : 2 ^ log2Fuel fuel n ≤ n := by
  induction fuel generalizing n with
  | zero => simpa [log2Fuel] using hn
  | succ f ih =>
    unfold log2Fuel
    split
    · have := ih (n / 2) (by omega)
      rw [pow_succ]
      omega
    · simpa using hn

theorem ilog2_lt (n b : Nat) (hn : 1 ≤ n) (hb : n < 2 ^ b) : ilog2 n < b := by
  have h := two_pow_log2Fuel_le n n hn
  have h2 : 2 ^ ilog2 n < 2 ^ b := lt_of_le_of_lt h hb
  exact (Nat.pow_lt_pow_iff_right (by norm_num)).mp h2

/-- Rounding `n * K / 9` to the nearest integer and then the quotient by `K` to the
nearest integer gives the nearest integer to `n / 9`, as soon as `K` is at least 9. -/
theorem round_scaled (n K : Nat) (hK : 9 ≤ K) :
    (2 * (if 2 * (n * K % 9) < 9 then n * K / 9
          else if 9 < 2 * (n * K % 9) then n * K / 9 + 1
          else n * K / 9 + n * K / 9 % 2) + K) / (2 * K) = (2 * n + 9) / 18 := by
  obtain ⟨a, j, hj, rfl⟩ : ∃ a j, j < 9 ∧ n = 9 * a + j := ⟨n / 9, n % 9, by omega, by omega⟩
  generalize hX : a * K = X
  have hnK : (9 * a + j) * K = 9 * X + j * K := by rw [← hX]; ring
  rw [hnK]
  have hR : (2 * (9 * a + j) + 9) / 18 = a + (if 5 ≤ j then 1 else 0) := by
    split_ifs <;> omega
  have e1 : (a + (if 5 ≤ j then 1 else 0)) * (2 * K)
      = 2 * X + (if 5 ≤ j then 2 * K else 0) := by
    rw [← hX]; split_ifs <;> ring
  have e2 : (a + (if 5 ≤ j then 1 else 0) + 1) * (2 * K)
      = 2 * X + 2 * K + (if 5 ≤ j then 2 * K else 0) := by
    rw [← hX]; split_ifs <;> ring
  rw [hR]
  apply Nat.div_eq_of_lt_le
  · rw [e1]
    interval_cases j <;> simp only [Nat.reduceLeDiff, if_true, if_false] <;> split_ifs <;> omega
  · rw [e2]
    interval_cases j <;> simp only [Nat.reduceLeDiff, if_true, if_false] <;> split_ifs <;> omega

theorem round_ofRatio_ninths (n : Nat) (hn : 9 ≤ n) (hlt : n / 9 < 2 ^ 31) :
    Fp.round (Fp.ofRatio 53 false n 9) = (((2 * n + 9) / 18 : Nat) : Int) := by
  have hn0 : n ≠ 0 := by omega
  have he : ilog2 (n / 9) < 31 := ilog2_lt _ _ (by omega) hlt
  obtain ⟨k, hk4, hshift⟩ :
      ∃ k : Nat, 4 ≤ k ∧ ((53 : Nat) : Int) - 1 - floorLog2 n 9 = (k : Int) := by
    refine ⟨52 - ilog2 (n / 9), by omega, ?_⟩
    simp only [floorLog2, if_pos hn]
    omega
  have hK : 9 ≤ 2 ^ k :=
    calc 9 ≤ 2 ^ 4 := by norm_num
      _ ≤ 2 ^ k := Nat.pow_le_pow_right (by norm_num) hk4
  have hneg : ¬ (0 : Int) ≤ -(k : Int) := by omega
  simp only [Fp.ofRatio, if_neg hn0, hshift, Fp.round, if_neg hneg, neg_neg,
    Int.toNat_ofNat, Int.toNat_neg_nat, pow_zero, mul_one]
  have hpow : 2 ^ (k + 1) = 2 * 2 ^ k := by ring
  rw [if_neg (by simp), hpow, round_scaled n (2 ^ k) hK]

theorem nearestInt_sixteen_ninths (H : Nat) :
    nearestInt (((H : Int) : ℚ) * 16 / 9) = (((2 * (H * 16) + 9) / 18 : Nat) : Int) := by
  have hq : (0 : ℚ) ≤ ((H : Int) : ℚ) * 16 / 9 := by positivity
  have hsum : ((H : Int) : ℚ) * 16 / 9 + 1 / 2
      = ((2 * (H * 16) + 9 : Nat) : ℚ) / ((18 : Nat) : ℚ) := by
    push_cast
    ring
  rw [nearestInt, if_pos hq, hsum, Rat.floor_natCast_div_natCast]
  norm_cast

/-- C10, as amended: for every desiredResolutionHeight h with 0 <= h < 1207959552 (the
heights whose width fits in `int`), ApplyPresets sets textureHeight = h and textureWidth
= the integer nearest to h*16/9, a half going away from zero, taken exactly over the
rationals; and h = 620 gives textureWidth = 1102 and textureHeight = 620. -/
theorem ApplyPresets_width_height (s : TextureStreamer)
    (h0 : 0 ≤ s.desiredResolutionHeight) (h1 : s.desiredResolutionHeight < 1207959552) :
    s.ApplyPresets.textureHeight = s.desiredResolutionHeight ∧
    s.ApplyPresets.textureWidth = nearestInt ((s.desiredResolutionHeight : ℚ) * 16 / 9) ∧
    (s.desiredResolutionHeight = 620 →
      s.ApplyPresets.textureWidth = 1102 ∧ s.ApplyPresets.textureHeight = 620) := by
  obtain ⟨H, hH⟩ := Int.eq_ofNat_of_zero_le h0
  have hHlt : H < 1207959552 := by omega
  have hwidth : s.ApplyPresets.textureWidth
      = nearestInt ((s.desiredResolutionHeight : ℚ) * 16 / 9) := by
    rw [hH, nearestInt_sixteen_ninths]
    have hnn : ¬ ((H : Int) < 0) := by omega
    simp only [TextureStreamer.ApplyPresets, hH, Int.natAbs_ofNat, hnn, decide_False]
    by_cases hz : H = 0
    · subst hz
      decide
    · rw [round_ofRatio_ninths (H * 16) (by omega) (by norm_num; omega)]
      have hin : IsInt (((2 * (H * 16) + 9) / 18 : Nat) : Int) := by
        unfold IsInt
        omega
      simp only [castToInt, if_pos hin]
  refine ⟨rfl, hwidth, fun h620 => ⟨?_, ?_⟩⟩
  · rw [hwidth, hH, nearestInt_sixteen_ninths]
    have : H = 620 := by omega
    subst this
    norm_num
  · exact h620

/-- Witness of C10: the streamer as constructed, with the default height 620. -/
theorem ApplyPresets_width_height_witness :
    0 ≤ defaultStreamer.desiredResolutionHeight ∧
    defaultStreamer.desiredResolutionHeight < 1207959552 ∧
    (defaultStreamer.ApplyPresets.textureHeight = defaultStreamer.desiredResolutionHeight ∧
      defaultStreamer.ApplyPresets.textureWidth
        = nearestInt ((defaultStreamer.desiredResolutionHeight : ℚ) * 16 / 9) ∧
      (defaultStreamer.desiredResolutionHeight = 620 →
        defaultStreamer.ApplyPresets.textureWidth = 1102 ∧
          defaultStreamer.ApplyPresets.textureHeight = 620)) :=
  ⟨by decide, by decide, ApplyPresets_width_height defaultStreamer (by decide) (by decide)⟩

/-- C10 fails as stated: for the height h = 1207959552 the integer nearest to h*16/9 is
2147483648, one more than the largest `int`, and the textureWidth that ApplyPresets
leaves is -2147483648. -/
theorem ApplyPresets_width_out_of_int :
    0 ≤ tallStreamer.desiredResolutionHeight ∧
    nearestInt ((tallStreamer.desiredResolutionHeight : ℚ) * 16 / 9) = 2147483648 ∧
    tallStreamer.ApplyPresets.textureWidth = -2147483648 ∧
    tallStreamer.ApplyPresets.textureWidth
      ≠ nearestInt ((tallStreamer.desiredResolutionHeight : ℚ) * 16 / 9) := by
  have hn : nearestInt ((tallStreamer.desiredResolutionHeight : ℚ) * 16 / 9) = 2147483648 := by
    have h := nearestInt_sixteen_ninths 1207959552
    have hd : tallStreamer.desiredResolutionHeight = ((1207959552 : Nat) : Int) := by decide
    rw [hd, h]
    norm_num
  have hw : tallStreamer.ApplyPresets.textureWidth = -2147483648 := by decide
  refine ⟨by decide, hn, hw, ?_⟩
  rw [hn, hw]
  decide

/-! ## StartStreaming and the capture loop -/

theorem StopStreaming_of_stopped (s : TextureStreamer) (hs : s.isStreaming = false) :
    s.StopStreaming = s := by
  cases s
  simp only [TextureStreamer.StopStreaming] at hs ⊢
  simp only [hs]

/-- A capture thread that stands at the head of the loop or has left it, with the flag
cleared, never acts: along every schedule the shared state stays as it is, and the
thread has left the loop as soon as it was given a step. -/
theorem runSchedule_of_stopped (A : Allocator) (live : List Nat) (sched : List Action)
    (w : Shared) (t : CaptureThread) (hs : w.streamer.isStreaming = false)
    (hpc : t.pc = .loopHead ∨ t.pc = .exited) :
    (runSchedule A live sched (w, t)).1 = w ∧
    (runSchedule A live sched (w, t)).2.waitDuration = t.waitDuration ∧
    ((runSchedule A live sched (w, t)).2.pc = .exited ∨
      ((runSchedule A live sched (w, t)).2.pc = t.pc ∧ Action.capture ∉ sched)) := by
  induction sched generalizing t with
  | nil => exact ⟨rfl, rfl, Or.inr ⟨rfl, by simp⟩⟩
  | cons a rest ih =>
    cases a with
    | capture =>
      have hstep : CaptureThread.step A live w t = (w, { t with pc := .exited }) := by
        rcases hpc with h | h
        · simp [CaptureThread.step, h, hs]
        · cases t
          simp only at h
          simp [CaptureThread.step, h]
      have h := ih { t with pc := .exited } (Or.inr rfl)
      simp only [runSchedule, hstep]
      refine ⟨h.1, h.2.1, Or.inl ?_⟩
      rcases h.2.2 with h3 | h3
      · exact h3
      · exact h3.1
    | stop =>
      have hstop : StopStreaming w = w := by
        cases w
        simp only [StopStreaming] at hs ⊢
        rw [StopStreaming_of_stopped _ hs]
      have h := ih t hpc
      simp only [runSchedule, hstop]
      refine ⟨h.1, h.2.1, ?_⟩
      rcases h.2.2 with h3 | h3
      · exact Or.inl h3
      · exact Or.inr ⟨h3.1, by simp [h3.2]⟩

/-- What a restart does in the code, from every state: with the network connected,
StartStreaming after a StopStreaming launches a capture thread while the running flag
is still false, and along every schedule that thread adds nothing to the trace and has
left the loop as soon as it took a step. -/
theorem StartStreaming_after_stop (A : Allocator) (live : List Nat) (w : Shared)
    (hconn : w.net.IsConnected = true) :
    StartStreaming (StopStreaming w)
      = (StopStreaming w, some (CaptureThread.start (StopStreaming w).streamer)) ∧
    (StartStreaming (StopStreaming w)).1.streamer.isStreaming = false ∧
    ∀ sched : List Action,
      (runSchedule A live sched
          (StopStreaming w, CaptureThread.start (StopStreaming w).streamer)).1
        = StopStreaming w ∧
      (runSchedule A live sched
          (StopStreaming w, CaptureThread.start (StopStreaming w).streamer)).1.trace
        = w.trace ∧
      (Action.capture ∈ sched →
        (runSchedule A live sched
          (StopStreaming w, CaptureThread.start (StopStreaming w).streamer)).2.pc
          = .exited) := by
  have hc : (StopStreaming w).net.IsConnected = true := hconn
  have hs : (StopStreaming w).streamer.isStreaming = false := rfl
  have hstart : StartStreaming (StopStreaming w)
      = (StopStreaming w, some (CaptureThread.start (StopStreaming w).streamer)) := by
    simp only [StartStreaming, hc, if_true]
  refine ⟨hstart, by rw [hstart]; exact hs, fun sched => ?_⟩
  have h := runSchedule_of_stopped A live sched (StopStreaming w)
    (CaptureThread.start (StopStreaming w).streamer) hs (Or.inl rfl)
  refine ⟨h.1, by rw [h.1]; rfl, fun hmem => ?_⟩
  rcases h.2.2 with h3 | h3
  · exact h3
  · exact absurd hmem h3.2

/-- C8 on the code: restart after stop should stream again, and does not.  In the
program of `main` the loop of the first StartStreaming runs a cycle and raises an
event; after StopStreaming the network is still connected and a second StartStreaming
does launch a thread, but the flag is still false: that thread has left after its
first steps with the trace as the first run left it, a single raised event.  It ran no
cycle and published nothing. -/
theorem restart_runs_no_cycle :
    firstRun.1.trace = [.acquired ⟨2, ⟨1102, 620⟩⟩, .read, .encoded [], .raised 1 []] ∧
    firstRun.2.pc = .exited ∧
    firstRun.1.net.IsConnected = true ∧
    (StartStreaming firstRun.1).2 = some (CaptureThread.start firstRun.1.streamer) ∧
    (StartStreaming firstRun.1).1.streamer.isStreaming = false ∧
    secondRun.2.pc = .exited ∧
    secondRun.1.trace = firstRun.1.trace ∧
    secondRun.1.streamer.isStreaming = false := by
  decide

/-- C9: when PhotonNetwork::IsConnected is false, StartStreaming launches no thread and
returns with the shared state exactly as it was: the controller (running flag, derived
configuration, render target, pool), the network flags and the trace of acquires and
raised events are all unchanged. -/
theorem StartStreaming_not_connected (w : Shared) (hconn : w.net.IsConnected = false) :
    StartStreaming w = (w, none) := by
  simp [StartStreaming, hconn]

/-- Witness of C9: the program before `main` sets the network flags. -/
theorem StartStreaming_not_connected_witness :
    offlineShared.net.IsConnected = false ∧ StartStreaming offlineShared = (offlineShared, none) :=
  ⟨by decide, StartStreaming_not_connected offlineShared (by decide)⟩

/-! ## The capture interval -/

theorem ofRatio_twentieth : Fp.ofRatio 24 false 1 20 = ⟨false, 13421773, -28⟩ := by decide

theorem ofRatio_twentyfourth : Fp.ofRatio 24 false 1 24 = ⟨false, 11184811, -28⟩ := by decide

theorem ofRatio_thirtieth : Fp.ofRatio 24 false 1 30 = ⟨false, 8947849, -28⟩ := by decide

theorem ofRatio_sixtieth : Fp.ofRatio 24 false 1 60 = ⟨false, 8947849, -29⟩ := by decide

theorem ApplyPresets_waitTime_eq (s : TextureStreamer) :
    s.ApplyPresets.waitTime =
      match s.frameRate with
      | ._20FPS => ⟨false, 13421773, -28⟩
      | ._24FPS => ⟨false, 11184811, -28⟩
      | ._30FPS => ⟨false, 8947849, -28⟩
      | ._60FPS => ⟨false, 8947849, -29⟩ := by
  cases h : s.frameRate <;>
    simp only [TextureStreamer.ApplyPresets, h, ofRatio_twentieth, ofRatio_twentyfourth,
      ofRatio_thirtieth, ofRatio_sixtieth]

/-- C11, as amended: for each of the four presets ApplyPresets sets the capture interval
to the `float` nearest to 1/fps seconds, fps being the rate of the preset: a 24-bit
significand, within half a unit in the last place of 1/fps and not 1/fps itself;
_20FPS gives 13421773/2^28, _24FPS 11184811/2^28, _30FPS 8947849/2^28 (between 0.0333
and 0.0334), _60FPS 8947849/2^29.  And the switch on the value of the enumerator takes
the case that assigns this interval, never the default branch with its assertion. -/
theorem ApplyPresets_waitTime (s : TextureStreamer) :
    switchFrameRate s.frameRate.toNat = some s.ApplyPresets.waitTime ∧
    (s.ApplyPresets.waitTime =
      match s.frameRate with
      | ._20FPS => ⟨false, 13421773, -28⟩
      | ._24FPS => ⟨false, 11184811, -28⟩
      | ._30FPS => ⟨false, 8947849, -28⟩
      | ._60FPS => ⟨false, 8947849, -29⟩) ∧
    (2 ^ 23 ≤ s.ApplyPresets.waitTime.mant ∧ s.ApplyPresets.waitTime.mant < 2 ^ 24) ∧
    |s.ApplyPresets.waitTime.toRat - 1 / (s.frameRate.fps : ℚ)|
      ≤ (2 : ℚ) ^ (s.ApplyPresets.waitTime.exp - 1) ∧
    s.ApplyPresets.waitTime.toRat ≠ 1 / (s.frameRate.fps : ℚ) ∧
    ((333 : ℚ) / 10000 < (Fp.mk false 8947849 (-28)).toRat ∧
      (Fp.mk false 8947849 (-28)).toRat < 334 / 10000) := by
  have hw := ApplyPresets_waitTime_eq s
  refine ⟨?_, hw, ?_, ?_, ?_, ?_⟩
  · cases h : s.frameRate <;>
      simp only [TextureStreamer.ApplyPresets, h, switchFrameRate, FrameRatePreset.toNat]
  · rw [hw]
    cases s.frameRate <;> norm_num
  · rw [hw]
    cases s.frameRate <;> norm_num [Fp.toRat, FrameRatePreset.fps, abs_le]
  · rw [hw]
    cases s.frameRate <;> norm_num [Fp.toRat, FrameRatePreset.fps]
  · norm_num [Fp.toRat]

/-- C11 fails as stated: with the preset _30FPS of the constructor, the capture
interval that ApplyPresets sets is 8947849/268435456 seconds, which is not 1/30. -/
theorem ApplyPresets_waitTime_not_exact :
    defaultStreamer.frameRate = ._30FPS ∧
    defaultStreamer.ApplyPresets.waitTime.toRat = 8947849 / 268435456 ∧
    defaultStreamer.ApplyPresets.waitTime.toRat ≠ 1 / 30 := by
  have hw : defaultStreamer.ApplyPresets.waitTime = ⟨false, 8947849, -28⟩ := by decide
  rw [hw]
  refine ⟨by decide, ?_, ?_⟩ <;> norm_num [Fp.toRat]

/-! ## Configuring and stopping the controller -/

theorem InitializeTextureStreaming_fields (A : Allocator) (live : List Nat)
    (s : TextureStreamer) :
    (TextureStreamer.InitializeTextureStreaming A live s)
      = { s with renderTexture := (TextureStreamer.InitializeTextureStreaming A live s).renderTexture } := by
  unfold TextureStreamer.InitializeTextureStreaming
  split
  · rfl
  · split
    · rfl
    · rename_i r hr _
      cases s
      simp only at hr
      simp only [hr]

theorem InitializeTextureStreaming_renderTexture (A : Allocator) (live : List Nat)
    (s : TextureStreamer) :
    ∃ r, (TextureStreamer.InitializeTextureStreaming A live s).renderTexture = some r ∧
      r.obj.width = s.textureWidth ∧ r.obj.height = s.textureHeight := by
  unfold TextureStreamer.InitializeTextureStreaming
  split
  · exact ⟨_, rfl, rfl, rfl⟩
  · rename_i r hr
    split
    · exact ⟨_, rfl, rfl, rfl⟩
    · rename_i hdim
      have hdim2 : r.obj.width = s.textureWidth ∧ r.obj.height = s.textureHeight := by
        constructor
        · by_contra hne
          exact hdim (Or.inl hne)
        · by_contra hne
          exact hdim (Or.inr hne)
      exact ⟨r, hr, hdim2.1, hdim2.2⟩

theorem InitializeTextureStreaming_of_fresh (A : Allocator) (live : List Nat)
    (s : TextureStreamer) (r : TextureRef) (hr : s.renderTexture = some r)
    (hw : r.obj.width = s.textureWidth) (hh : r.obj.height = s.textureHeight) :
    TextureStreamer.InitializeTextureStreaming A live s = s := by
  unfold TextureStreamer.InitializeTextureStreaming
  split
  · rename_i hnone
    rw [hr] at hnone
    cases hnone
  · rename_i r2 hr2
    rw [hr] at hr2
    cases hr2
    rw [if_neg]
    rintro (h | h)
    · exact h hw
    · exact h hh

theorem ApplyPresets_Initialize_fixed (A : Allocator) (live : List Nat) (s : TextureStreamer) :
    (TextureStreamer.InitializeTextureStreaming A live s.ApplyPresets).ApplyPresets
      = TextureStreamer.InitializeTextureStreaming A live s.ApplyPresets := by
  rw [InitializeTextureStreaming_fields A live s.ApplyPresets]
  rfl

theorem Awake_Awake (A A2 : Allocator) (live live2 : List Nat) (s : TextureStreamer) :
    TextureStreamer.Awake A2 live2 (TextureStreamer.Awake A live s)
      = TextureStreamer.Awake A live s := by
  unfold TextureStreamer.Awake
  rw [ApplyPresets_Initialize_fixed]
  obtain ⟨r, hr, hw, hh⟩ := InitializeTextureStreaming_renderTexture A live s.ApplyPresets
  have hfields := InitializeTextureStreaming_fields A live s.ApplyPresets
  refine InitializeTextureStreaming_of_fresh A2 live2 _ r hr ?_ ?_
  · rw [hw, hfields]
  · rw [hh, hfields]

/-- C12: after ApplyPresets followed by InitializeTextureStreaming, from any controller
state, the render target is present and its width and height are the textureWidth and
textureHeight just derived; a render target that was present with these dimensions is
kept, the same object; the render target differs from the one before only if that one
was absent or had another width or height, and it is then a buffer newly made. -/
theorem Awake_renderTexture (A : Allocator) (live : List Nat) (s : TextureStreamer) :
    (∃ r, (TextureStreamer.Awake A live s).renderTexture = some r ∧
      r.obj.width = (TextureStreamer.Awake A live s).textureWidth ∧
      r.obj.height = (TextureStreamer.Awake A live s).textureHeight) ∧
    (TextureStreamer.Awake A live s).textureWidth = s.ApplyPresets.textureWidth ∧
    (TextureStreamer.Awake A live s).textureHeight = s.ApplyPresets.textureHeight ∧
    (∀ r0, s.renderTexture = some r0 → r0.obj.width = s.ApplyPresets.textureWidth →
      r0.obj.height = s.ApplyPresets.textureHeight →
      (TextureStreamer.Awake A live s).renderTexture = some r0) ∧
    ((TextureStreamer.Awake A live s).renderTexture ≠ s.renderTexture →
      (s.renderTexture = none ∨ ∃ r0, s.renderTexture = some r0 ∧
        (r0.obj.width ≠ s.ApplyPresets.textureWidth ∨
          r0.obj.height ≠ s.ApplyPresets.textureHeight)) ∧
      (TextureStreamer.Awake A live s).renderTexture
        = some (make_shared A (live ++ s.ApplyPresets.owned)
            s.ApplyPresets.textureWidth s.ApplyPresets.textureHeight)) := by
  have hfields := InitializeTextureStreaming_fields A live s.ApplyPresets
  obtain ⟨r, hr, hw, hh⟩ := InitializeTextureStreaming_renderTexture A live s.ApplyPresets
  have hW : (TextureStreamer.Awake A live s).textureWidth = s.ApplyPresets.textureWidth := by
    unfold TextureStreamer.Awake
    rw [hfields]
  have hH : (TextureStreamer.Awake A live s).textureHeight = s.ApplyPresets.textureHeight := by
    unfold TextureStreamer.Awake
    rw [hfields]
  have hkeep : ∀ r0, s.renderTexture = some r0 → r0.obj.width = s.ApplyPresets.textureWidth →
      r0.obj.height = s.ApplyPresets.textureHeight →
      (TextureStreamer.Awake A live s).renderTexture = some r0 := by
    intro r0 h0 hw0 hh0
    unfold TextureStreamer.Awake
    rw [InitializeTextureStreaming_of_fresh A live s.ApplyPresets r0 h0 hw0 hh0]
    exact h0
  refine ⟨⟨r, hr, ?_, ?_⟩, hW, hH, hkeep, ?_⟩
  · rw [hw, hW]
  · rw [hh, hH]
  · intro hne
    cases h0 : s.renderTexture with
    | none =>
      refine ⟨Or.inl rfl, ?_⟩
      have h1 : s.ApplyPresets.renderTexture = none := h0
      simp only [TextureStreamer.Awake, TextureStreamer.InitializeTextureStreaming, h1]
    | some r0 =>
      have h1 : s.ApplyPresets.renderTexture = some r0 := h0
      by_cases hdim : r0.obj.width ≠ s.ApplyPresets.textureWidth ∨
          r0.obj.height ≠ s.ApplyPresets.textureHeight
      · refine ⟨Or.inr ⟨r0, rfl, hdim⟩, ?_⟩
        simp only [TextureStreamer.Awake, TextureStreamer.InitializeTextureStreaming, h1,
          if_pos hdim]
      · exfalso
        apply hne
        rw [h0]
        apply hkeep r0 h0
        · by_contra hc
          exact hdim (Or.inl hc)
        · by_contra hc
          exact hdim (Or.inr hc)

/-- Witness of C12: the streamer as constructed has a 1102x620 render target, and
configuring it again keeps that very object. -/
theorem Awake_renderTexture_witness :
    defaultStreamer.renderTexture = some ⟨1, ⟨1102, 620⟩⟩ ∧
    (TextureStreamer.Awake bumpAllocator [] defaultStreamer).renderTexture
      = some ⟨1, ⟨1102, 620⟩⟩ :=
  ⟨by decide,
    (Awake_renderTexture bumpAllocator [] defaultStreamer).2.2.2.1 ⟨1, ⟨1102, 620⟩⟩
      (by decide) (by decide) (by decide)⟩

/-- C13: StopStreaming leaves the running flag false, whatever the state; stopping twice
is stopping once; no field but the flag is changed (nor the network flags or the trace
of the program); and on a controller whose flag is already false nothing changes. -/
theorem StopStreaming_idempotent (s : TextureStreamer) (w : Shared) :
    s.StopStreaming.isStreaming = false ∧
    s.StopStreaming.StopStreaming = s.StopStreaming ∧
    (s.StopStreaming.texturePool = s.texturePool ∧
      s.StopStreaming.frameRate = s.frameRate ∧
      s.StopStreaming.desiredResolutionHeight = s.desiredResolutionHeight ∧
      s.StopStreaming.compression = s.compression ∧
      s.StopStreaming.textureWidth = s.textureWidth ∧
      s.StopStreaming.textureHeight = s.textureHeight ∧
      s.StopStreaming.waitTime = s.waitTime ∧
      s.StopStreaming.renderTexture = s.renderTexture) ∧
    (s.isStreaming = false → s.StopStreaming = s) ∧
    StopStreaming (StopStreaming w) = StopStreaming w ∧
    (StopStreaming w).net = w.net ∧ (StopStreaming w).trace = w.trace ∧
    (StopStreaming w).streamer = w.streamer.StopStreaming := by
  refine ⟨rfl, rfl, ⟨rfl, rfl, rfl, rfl, rfl, rfl, rfl, rfl⟩, ?_, rfl, rfl, rfl, rfl⟩
  intro hs
  cases s
  simp only at hs
  simp only [TextureStreamer.StopStreaming, hs]

/-- Witness of C13: the controller of `main` once stopped is not running, and stopping
it again changes nothing. -/
theorem StopStreaming_idempotent_witness :
    defaultStreamer.StopStreaming.isStreaming = false ∧
    defaultStreamer.StopStreaming.StopStreaming = defaultStreamer.StopStreaming :=
  ⟨by decide,
    (StopStreaming_idempotent defaultStreamer.StopStreaming onlineShared).2.2.2.1 (by decide)⟩

/-- C18: ApplyPresets followed by InitializeTextureStreaming, applied a second time,
changes nothing: the state after two applications is the state after one (the same
textureWidth, textureHeight and interval, the same render-target object), whatever the
allocator would hand out; so the Awake that follows the constructor leaves the
controller as the constructor made it. -/
theorem Awake_idempotent (A A2 : Allocator) (live live2 : List Nat) (s : TextureStreamer) :
    TextureStreamer.Awake A2 live2 (TextureStreamer.Awake A live s)
      = TextureStreamer.Awake A live s ∧
    TextureStreamer.Awake A2 live2 (TextureStreamer.new A live)
      = TextureStreamer.new A live :=
  ⟨Awake_Awake A A2 live live2 s, Awake_Awake A A2 live live2 _⟩

/-! ## The free list after GetTexture, by index -/

theorem split_at_index (L : List TextureRef) (k : Nat) (m : TextureRef)
    (hk : L[k]? = some m) : L = L.take k ++ m :: L.drop (k + 1) := by
  obtain ⟨hlt, hm⟩ := List.getElem?_eq_some_iff.mp hk
  have h := (List.take_append_drop k L).symm
  rw [List.drop_eq_getElem_cons hlt, hm] at h
  exact h

/-- C19: when the first buffer of shape (W,H) of the free list L is at index k,
GetTexture(W,H) returns it and the free list afterwards is the elements of L after
index k followed by the elements of L before index k; when no buffer of L has shape
(W,H), the free list afterwards is empty. -/
theorem GetTexture_free_list_by_index (A : Allocator) (live : List Nat)
    (pool : TexturePool) (W H : Int) :
    (∀ (k : Nat) (m : TextureRef), pool.availableTextures[k]? = some m →
      sameShape W H m = true →
      (∀ t ∈ pool.availableTextures.take k, sameShape W H t = false) →
      (pool.GetTexture A live W H).1 = m ∧
      (pool.GetTexture A live W H).2.availableTextures
        = pool.availableTextures.drop (k + 1) ++ pool.availableTextures.take k) ∧
    ((∀ t ∈ pool.availableTextures, sameShape W H t = false) →
      (pool.GetTexture A live W H).2.availableTextures = []) := by
  refine ⟨fun k m hk hm hbefore => ?_, fun hmiss => ?_⟩
  · have hL := split_at_index pool.availableTextures k m hk
    have hscan := scanQueue_hit A live W H (pool.availableTextures.take k) m
      (pool.availableTextures.drop (k + 1)) [] hbefore hm
    rw [← hL] at hscan
    simp only [TexturePool.GetTexture, hscan, List.nil_append, and_self]
  · have hscan := scanQueue_miss A live W H pool.availableTextures [] hmiss
    simp only [TexturePool.GetTexture, hscan]

/-- Witness of C19: in the pool 1x1, 2x2, 3x3 the first 2x2 buffer is at index 1 and
GetTexture(2,2) leaves 3x3, 1x1; GetTexture(5,5) finds nothing and leaves no buffer. -/
theorem GetTexture_free_list_by_index_witness :
    (mixedPool.availableTextures[1]? = some ⟨2, ⟨2, 2⟩⟩ ∧
      (mixedPool.GetTexture bumpAllocator [] 2 2).2.availableTextures
        = mixedPool.availableTextures.drop (1 + 1) ++ mixedPool.availableTextures.take 1) ∧
    ((∀ t ∈ mixedPool.availableTextures, sameShape 5 5 t = false) ∧
      (mixedPool.GetTexture bumpAllocator [] 5 5).2.availableTextures = []) :=
  ⟨⟨by decide,
      ((GetTexture_free_list_by_index bumpAllocator [] mixedPool 2 2).1 1 ⟨2, ⟨2, 2⟩⟩
        (by decide) (by decide) (by decide)).2⟩,
    ⟨by decide,
      (GetTexture_free_list_by_index bumpAllocator [] mixedPool 5 5).2 (by decide)⟩⟩

/-! ## The read of the capture loop -/

/-- C20, as amended: for every texture whose width and height are `int` values, hence
for every buffer that GetTexture returns for an `int` request, the read
ReadPixels(0, 0, width, height) of the capture loop does not take the out-of-range
branch; and for width, height >= 0 with width*height*3 at most 2147483647 it returns
exactly width*height*3 bytes. -/
theorem full_read_passes_check (t : Texture2D) (A : Allocator) (live : List Nat)
    (pool : TexturePool) (W H : Int)
    (htw : IsInt t.width) (hth : IsInt t.height) (hW : IsInt W) (hH : IsInt H) :
    t.ReadPixels 0 0 t.width t.height ≠ .error .out_of_range ∧
    (0 ≤ t.width → 0 ≤ t.height → t.width * t.height * 3 ≤ 2147483647 →
      ∃ bytes, t.ReadPixels 0 0 t.width t.height = .ok bytes ∧
        (bytes.length : Int) = t.width * t.height * 3) ∧
    (pool.GetTexture A live W H).1.obj.ReadPixels 0 0
        (pool.GetTexture A live W H).1.obj.width (pool.GetTexture A live W H).1.obj.height
      ≠ .error .out_of_range := by
  have key : ∀ u : Texture2D, IsInt u.width → IsInt u.height →
      u.ReadPixels 0 0 u.width u.height
        = vectorFill (wrapInt (wrapInt (u.width * u.height) * 3)) 0 := by
    intro u hw hh
    have e1 : wrapInt (0 + u.width) = u.width := by rw [zero_add, wrapInt_of_isInt _ hw]
    have e2 : wrapInt (0 + u.height) = u.height := by rw [zero_add, wrapInt_of_isInt _ hh]
    have hcheck : ¬ ((0 : Int) < 0 ∨ (0 : Int) < 0 ∨ u.width > u.width ∨ u.height > u.height) := by
      omega
    simp only [Texture2D.ReadPixels, e1, e2, if_neg hcheck]
  have hfill : ∀ n : Int, vectorFill n 0 ≠ .error .out_of_range := by
    intro n
    unfold vectorFill
    simp only
    split <;> simp
  refine ⟨?_, ?_, ?_⟩
  · rw [key t htw hth]
    exact hfill _
  · intro h0w h0h hsize
    have hp : 0 ≤ t.width * t.height := mul_nonneg h0w h0h
    have e3 : wrapInt (t.width * t.height) = t.width * t.height :=
      wrapInt_of_isInt _ ⟨by omega, by omega⟩
    have e4 : wrapInt (t.width * t.height * 3) = t.width * t.height * 3 :=
      wrapInt_of_isInt _ ⟨by omega, by omega⟩
    refine ⟨List.replicate (t.width * t.height * 3).toNat 0, ?_, ?_⟩
    · rw [key t htw hth, e3, e4]
      exact vectorFill_of_count _ (by omega) hsize
    · rw [List.length_replicate]
      exact Int.toNat_of_nonneg (by omega)
  · have hshape := scanQueue_shape A live W H pool.availableTextures []
    have hobj : (pool.GetTexture A live W H).1.obj = ⟨W, H⟩ := hshape
    have hw2 : IsInt (pool.GetTexture A live W H).1.obj.width := by rw [hobj]; exact hW
    have hh2 : IsInt (pool.GetTexture A live W H).1.obj.height := by rw [hobj]; exact hH
    rw [key _ hw2 hh2]
    exact hfill _

/-- Witness of C20: a 4x3 texture, and the request (4,3) on a pool without such a
buffer: the whole texture is read as 36 bytes. -/
theorem full_read_passes_check_witness :
    (IsInt 4 ∧ IsInt 3) ∧
    (Texture2D.mk 4 3).ReadPixels 0 0 4 3 ≠ .error .out_of_range ∧
    (∃ bytes, (Texture2D.mk 4 3).ReadPixels 0 0 4 3 = .ok bytes ∧
      (bytes.length : Int) = 4 * 3 * 3) ∧
    (singlePool.GetTexture bumpAllocator [] 4 3).1.obj.ReadPixels 0 0
        (singlePool.GetTexture bumpAllocator [] 4 3).1.obj.width
        (singlePool.GetTexture bumpAllocator [] 4 3).1.obj.height
      ≠ .error .out_of_range :=
  ⟨by decide,
    (full_read_passes_check ⟨4, 3⟩ bumpAllocator [] singlePool 4 3
      (by decide) (by decide) (by decide) (by decide)).1,
    (full_read_passes_check ⟨4, 3⟩ bumpAllocator [] singlePool 4 3
      (by decide) (by decide) (by decide) (by decide)).2.1
      (by decide) (by decide) (by decide),
    (full_read_passes_check ⟨4, 3⟩ bumpAllocator [] singlePool 4 3
      (by decide) (by decide) (by decide) (by decide)).2.2⟩

/-- C20 fails as stated: with the desired height 20100 the capture loop asks the pool
for a 35733x20100 buffer, width and height are not negative, and the read of the whole
buffer returns no bytes: 35733*20100*3 overflows `int` and the vector constructor
throws `std::length_error` (the out-of-range branch is not taken). -/
theorem full_read_can_throw :
    wideShared.streamer.textureWidth = 35733 ∧ wideShared.streamer.textureHeight = 20100 ∧
    (wideShared.streamer.texturePool.GetTexture bumpAllocator [] 35733 20100).1.obj
      = ⟨35733, 20100⟩ ∧
    (0 : Int) ≤ 35733 ∧ (0 : Int) ≤ 20100 ∧
    (Texture2D.mk 35733 20100).ReadPixels 0 0 35733 20100 = .error .length_error := by
  decide

/-! ## The capture loop, cycle by cycle -/

/-- C15 on the code: in the program of `main` the first cycle acquires a new 1102x620
buffer and raises the event, and when the thread is at its wait the free list is empty:
the buffer was not returned.  The second cycle finds no buffer to reuse and acquires
the result of another `make_shared`. -/
theorem capture_cycle_returns_nothing :
    firstCycle.1.trace = [.acquired ⟨2, ⟨1102, 620⟩⟩, .read, .encoded [], .raised 1 []] ∧
    firstCycle.2.pc = .waiting ∧
    firstCycle.1.streamer.texturePool.availableTextures = [] ∧
    (⟨2, ⟨1102, 620⟩⟩ : TextureRef) ∉ firstCycle.1.streamer.texturePool.availableTextures ∧
    secondCycle.2.pc = .waiting ∧
    secondCycle.1.trace.drop 4
      = [.acquired (make_shared bumpAllocator [1] 1102 620), .read, .encoded [],
          .raised 1 []] ∧
    secondCycle.1.streamer.texturePool.availableTextures = [] := by
  decide

theorem step_exits_only_when_cleared (A : Allocator) (live : List Nat) (w : Shared)
    (t : CaptureThread) (hexit : (CaptureThread.step A live w t).2.pc = .exited) :
    t.pc = .exited ∨ w.streamer.isStreaming = false := by
  obtain ⟨pc, d⟩ := t
  cases pc
  · by_cases hs : w.streamer.isStreaming = true
    · simp [CaptureThread.step, hs] at hexit
    · exact Or.inr (by simpa using hs)
  · simp [CaptureThread.step] at hexit
  · by_cases hs : w.streamer.isStreaming = true
    · simp [CaptureThread.step, hs] at hexit
    · exact Or.inr (by simpa using hs)
  · exact Or.inl rfl

theorem captureBody_isStreaming (A : Allocator) (live : List Nat) (w : Shared) :
    (captureBody A live w).streamer.isStreaming = w.streamer.isStreaming := by
  unfold captureBody
  simp only
  split <;> rfl

/-- C16: in a capture cycle whose read fails with an exception e, the body records the
acquire and the caught exception and raises no event; the exception stays inside the
body, whose step ends at the wait with the flag as it was; from the wait, and then from
the head of the loop, the thread goes on to the next body as long as the flag is set;
and a step leaves the loop only when the flag is false. -/
theorem capture_failure_contained (A : Allocator) (live : List Nat) (w : Shared)
    (t : CaptureThread) (e : Exception) (hbody : t.pc = .body)
    (hfail :
      (w.streamer.texturePool.GetTexture A
          (live ++ (w.streamer.renderTexture.map TextureRef.addr).toList)
          w.streamer.textureWidth w.streamer.textureHeight).1.obj.ReadPixels 0 0
        (w.streamer.texturePool.GetTexture A
          (live ++ (w.streamer.renderTexture.map TextureRef.addr).toList)
          w.streamer.textureWidth w.streamer.textureHeight).1.obj.width
        (w.streamer.texturePool.GetTexture A
          (live ++ (w.streamer.renderTexture.map TextureRef.addr).toList)
          w.streamer.textureWidth w.streamer.textureHeight).1.obj.height
        = .error e) :
    (CaptureThread.step A live w t).1.trace
      = w.trace ++ [.acquired (w.streamer.texturePool.GetTexture A
          (live ++ (w.streamer.renderTexture.map TextureRef.addr).toList)
          w.streamer.textureWidth w.streamer.textureHeight).1, .caught e] ∧
    (∀ code data, Event.raised code data ∉ (CaptureThread.step A live w t).1.trace.drop
      w.trace.length) ∧
    (CaptureThread.step A live w t).2.pc = .waiting ∧
    (CaptureThread.step A live w t).1.streamer.isStreaming = w.streamer.isStreaming ∧
    ((CaptureThread.step A live w t).1.streamer.isStreaming = true →
      (runSchedule A live [.capture, .capture, .capture] (w, t)).2.pc = .body ∧
      (runSchedule A live [.capture, .capture, .capture] (w, t)).1
        = (CaptureThread.step A live w t).1) ∧
    (∀ (w2 : Shared) (t2 : CaptureThread), (CaptureThread.step A live w2 t2).2.pc = .exited →
      t2.pc = .exited ∨ w2.streamer.isStreaming = false) := by
  have hstep : CaptureThread.step A live w t = (captureBody A live w, { t with pc := .waiting }) := by
    obtain ⟨pc, d⟩ := t
    simp only at hbody
    subst hbody
    rfl
  have htrace : (captureBody A live w).trace
      = w.trace ++ [.acquired (w.streamer.texturePool.GetTexture A
          (live ++ (w.streamer.renderTexture.map TextureRef.addr).toList)
          w.streamer.textureWidth w.streamer.textureHeight).1, .caught e] := by
    unfold captureBody
    simp only [hfail]
  refine ⟨?_, ?_, ?_, ?_, ?_, fun w2 t2 h => step_exits_only_when_cleared A live w2 t2 h⟩
  · rw [hstep]
    exact htrace
  · intro code data
    rw [hstep]
    simp only [htrace, List.drop_left]
    simp
  · rw [hstep]
  · rw [hstep]
    exact captureBody_isStreaming A live w
  · rw [hstep]
    intro hs
    simp only at hs
    simp only [runSchedule]
    rw [hstep]
    simp only [CaptureThread.step, hs, if_true, and_self]

/-- Witness of C16: with the desired height 20100 the read of the 35733x20100 buffer
throws `std::length_error` in every cycle; the cycle raises no event and the thread
goes on to the next body. -/
theorem capture_failure_contained_witness :
    (CaptureThread.mk .body 33).pc = .body ∧
    (CaptureThread.step bumpAllocator [] wideShared ⟨.body, 33⟩).1.trace
      = [.acquired ⟨3, ⟨35733, 20100⟩⟩, .caught .length_error] ∧
    (CaptureThread.step bumpAllocator [] wideShared ⟨.body, 33⟩).2.pc = .waiting ∧
    (runSchedule bumpAllocator [] [.capture, .capture, .capture]
      (wideShared, ⟨.body, 33⟩)).2.pc = .body :=
  ⟨by decide,
    ((capture_failure_contained bumpAllocator [] wideShared ⟨.body, 33⟩ .length_error
      (by decide) (by decide)).1).trans (by decide),
    (capture_failure_contained bumpAllocator [] wideShared ⟨.body, 33⟩ .length_error
      (by decide) (by decide)).2.2.1,
    ((capture_failure_contained bumpAllocator [] wideShared ⟨.body, 33⟩ .length_error
      (by decide) (by decide)).2.2.2.2.1 (by decide)).1⟩

theorem runSchedule_of_cleared (A : Allocator) (live : List Nat) (sched : List Action)
    (w : Shared) (t : CaptureThread) (hs : w.streamer.isStreaming = false)
    (hpc : t.pc ≠ .body) :
    (runSchedule A live sched (w, t)).1 = w ∧
    (Action.capture ∈ sched → (runSchedule A live sched (w, t)).2.pc = .exited) := by
  cases sched with
  | nil => exact ⟨rfl, fun h => absurd h (by simp)⟩
  | cons a rest =>
    have hstep : CaptureThread.step A live w t = (w, { t with pc := .exited }) := by
      obtain ⟨pc, d⟩ := t
      cases pc
      · simp [CaptureThread.step, hs]
      · exact absurd rfl hpc
      · simp [CaptureThread.step, hs]
      · simp [CaptureThread.step]
    have hstop : StopStreaming w = w := by
      cases w
      simp only [StopStreaming] at hs ⊢
      rw [StopStreaming_of_stopped _ hs]
    cases a with
    | capture =>
      have h := runSchedule_of_stopped A live rest w { t with pc := .exited } hs (Or.inr rfl)
      simp only [runSchedule, hstep]
      refine ⟨h.1, fun _ => ?_⟩
      rcases h.2.2 with h3 | h3
      · exact h3
      · exact h3.1
    | stop =>
      have ih := runSchedule_of_cleared A live rest w t hs hpc
      simp only [runSchedule, hstop]
      refine ⟨ih.1, fun hmem => ih.2 ?_⟩
      simpa using hmem
termination_by sched.length

/-- C17: in every state of the capture loop where the running flag is false and the
thread is at the test at the head of the loop or at the wait at the end of a cycle, the
next step of the thread leaves the loop and changes nothing; and along every schedule
from such a state the shared state stays as it is (no acquire, read, encode or publish
is added to the trace) and the thread has left as soon as it took a step. -/
theorem cleared_flag_exits (A : Allocator) (live : List Nat) (w : Shared)
    (t : CaptureThread) (hs : w.streamer.isStreaming = false)
    (hpc : t.pc = .loopHead ∨ t.pc = .waiting) :
    CaptureThread.step A live w t = (w, { t with pc := .exited }) ∧
    ∀ sched : List Action,
      (runSchedule A live sched (w, t)).1 = w ∧
      (runSchedule A live sched (w, t)).1.trace = w.trace ∧
      (Action.capture ∈ sched → (runSchedule A live sched (w, t)).2.pc = .exited) := by
  have hnb : t.pc ≠ .body := by
    rcases hpc with h | h <;> rw [h] <;> decide
  refine ⟨?_, fun sched => ?_⟩
  · obtain ⟨pc, d⟩ := t
    rcases hpc with h | h <;> simp only at h <;> subst h <;> simp [CaptureThread.step, hs]
  · have h := runSchedule_of_cleared A live sched w t hs hnb
    exact ⟨h.1, by rw [h.1], h.2⟩

/-- Witness of C17: `StopStreaming` is called while the thread of `main` waits at the
end of its first cycle; its next step leaves the loop. -/
theorem cleared_flag_exits_witness :
    stoppedWhileWaiting.1.streamer.isStreaming = false ∧
    stoppedWhileWaiting.2.pc = .waiting ∧
    CaptureThread.step bumpAllocator [] stoppedWhileWaiting.1 stoppedWhileWaiting.2
      = (stoppedWhileWaiting.1, { stoppedWhileWaiting.2 with pc := .exited }) :=
  ⟨by decide, by decide,
    (cleared_flag_exits bumpAllocator [] stoppedWhileWaiting.1 stoppedWhileWaiting.2
      (by decide) (Or.inr (by decide))).1⟩

end TextureStreaming
